import Mathlib

/-!
Verification development for the TrailblazerAI Pay-i proxy service
(directory src/services/payi-proxy: main.py, models.py, config.py).

The service is a thin FastAPI wrapper around two external SDKs (the
Anthropic provider client and the Pay-i tracking client).  The shallow
embedding below translates the request-handling code into pure Lean
functions:

* external effects appear as explicit inputs: the provider call's outcome
  is a ProviderResult value, the Pay-i track-context/get-context pair is a
  function from the context kwargs to the context dictionary, and the
  uuid.uuid4() fallback is a fresh_uuid string input;
* a raised Python exception is an Except error value; the three exception
  shapes that reach the handlers (fastapi.HTTPException, anthropic.APIError,
  any other Exception) are the three constructors of RaisedError;
* Python string operations (split, startswith, join, f-strings, truthiness)
  are embedded with explicit helpers whose semantics match CPython's for
  the inputs the service uses (single-character separators, maxsplit 1).
-/

namespace PayiProxy

/-- Helper for Python `s.split(sep, 1)`: find the first occurrence of the
separator character and return the characters before and after it, or
`none` when the separator does not occur. -/
def splitFirst (sep : Char) : List Char → Option (List Char × List Char)
  | [] => none
  | c :: rest =>
    if c = sep then some ([], rest)
    else
      match splitFirst sep rest with
      | none => none
      | some (a, b) => some (c :: a, b)

/-- Python `s.split(sep)` for a single-character separator on the character
list of the string (CPython returns `[""]` for the empty string and keeps
empty fields). -/
def pySplitAll (sep : Char) : List Char → List (List Char)
  | [] => [[]]
  | c :: rest =>
    if c = sep then [] :: pySplitAll sep rest
    else
      match pySplitAll sep rest with
      | [] => [[c]]
      | h :: t => (c :: h) :: t

/-- Python `s.split(sep, 1)`: at most one split, at the first occurrence. -/
def pySplit1 (sep : Char) (s : String) : List String :=
  match splitFirst sep s.data with
  | none => [s]
  | some (a, b) => [String.mk a, String.mk b]

/-- Python `s.startswith(pre)`. -/
def pyStartsWith (pre s : String) : Bool :=
  pre.data.isPrefixOf s.data

/-- Python `sep.join(parts)`. -/
def pyJoin (sep : String) : List String → String
  | [] => ""
  | [x] => x
  | x :: y :: xs => x ++ sep ++ pyJoin sep (y :: xs)

/-- Python `str(b)` for a bool: `"True"` / `"False"`. -/
def pyStrBool (b : Bool) : String :=
  if b then "True" else "False"

/-- Naive substring test on character lists: does `sub` occur contiguously
inside the second list? -/
def listIsInfix (sub : List Char) : List Char → Bool
  | [] => sub.isEmpty
  | l@(_ :: rest) => sub.isPrefixOf l || listIsInfix sub rest

/-- `strContains s sub`: `sub` occurs as a contiguous substring of `s`
(Python `sub in s`). -/
def strContains (s sub : String) : Bool :=
  listIsInfix sub.data s.data

/- ---------------------------------------------------------------------
models.py: Pydantic request/response schemas.  `Optional[T]` becomes
`Option T`, `dict[str, str]` becomes an association list, and Pydantic
field defaults become Lean structure-field defaults.  Pydantic places no
non-emptiness constraint on `AnalyzeRequest.images`: any `List String`
(including `[]`) is a valid value of the field.
--------------------------------------------------------------------- -/

/-- models.py `VehicleInfo`. -/
structure VehicleInfo where
  make : String
  model : String
  year : Option Int := none
  features : List String := []
  suspension_brand : Option String := none
  suspension_travel : Option String := none
deriving DecidableEq

/-- models.py `AnalysisContext`. -/
structure AnalysisContext where
  trail_name : Option String := none
  trail_location : Option String := none
  additional_notes : Option String := none
deriving DecidableEq

/-- models.py `AnalyzeRequest`. -/
structure AnalyzeRequest where
  images : List String
  model : String := "claude-sonnet-4-20250514"
  prompt : Option String := none
  vehicle_info : Option VehicleInfo := none
  context : Option AnalysisContext := none
  user_id : Option String := none
  account_name : Option String := none
  limit_ids : List String := []
  use_case_name : Option String := none
  use_case_version : Option Int := none
  use_case_properties : Option (List (String × String)) := none
  request_properties : Option (List (String × String)) := none
deriving DecidableEq

/-- models.py `TrailFinderRequest`. -/
structure TrailFinderRequest where
  prompt : String
  model : String := "claude-sonnet-4-20250514"
  max_tokens : Nat := 4096
  user_id : Option String := none
  account_name : Option String := none
  use_case_name : Option String := some "trail_finder"
  use_case_version : Option Int := some 1
  use_case_properties : Option (List (String × String)) := none
  request_properties : Option (List (String × String)) := none
deriving DecidableEq

/-- models.py `UsageMetrics`. -/
structure UsageMetrics where
  input_tokens : Nat
  output_tokens : Nat
  cost : Option ℚ := none
  input_cost : Option ℚ := none
  output_cost : Option ℚ := none
deriving DecidableEq

/-- models.py `AnalyzeResponse`. -/
structure AnalyzeResponse where
  success : Bool
  text : String := ""
  usage : UsageMetrics
  use_case_id : String
  payi_request_id : Option String := none
  error : Option String := none
deriving DecidableEq

/-- models.py `TrailFinderResponse`. -/
structure TrailFinderResponse where
  success : Bool
  text : String := ""
  usage : UsageMetrics
  use_case_id : String
  payi_request_id : Option String := none
  error : Option String := none
deriving DecidableEq

/- ---------------------------------------------------------------------
config.py: the settings snapshot and its lru_cache accessor.
--------------------------------------------------------------------- -/

/-- config.py `Settings`, with the defaults of the source. -/
structure Settings where
  payi_api_key : String := ""
  payi_base_url : String := "https://api.pay-i.com"
  anthropic_api_key : String := ""
  openai_api_key : String := ""
  google_api_key : String := ""
  service_name : String := "trailblazer-payi-proxy"
  environment : String := "development"
  debug : Bool := false
  default_use_case : String := "trail_analysis"
  use_case_version : Int := 2
deriving DecidableEq

/-- The environment variables `Settings()` reads, already type-coerced
(the spec places coercion out of scope); `none` means the variable is
absent so the field keeps its default. -/
structure EnvVars where
  payi_api_key : Option String := none
  payi_base_url : Option String := none
  anthropic_api_key : Option String := none
  openai_api_key : Option String := none
  google_api_key : Option String := none
  service_name : Option String := none
  environment : Option String := none
  debug : Option Bool := none
  default_use_case : Option String := none
  use_case_version : Option Int := none
deriving DecidableEq

/-- Constructing `Settings()` from the environment (pydantic-settings):
each present variable overrides the default. -/
def Settings.load (e : EnvVars) : Settings :=
  { payi_api_key := e.payi_api_key.getD ""
    payi_base_url := e.payi_base_url.getD "https://api.pay-i.com"
    anthropic_api_key := e.anthropic_api_key.getD ""
    openai_api_key := e.openai_api_key.getD ""
    google_api_key := e.google_api_key.getD ""
    service_name := e.service_name.getD "trailblazer-payi-proxy"
    environment := e.environment.getD "development"
    debug := e.debug.getD false
    default_use_case := e.default_use_case.getD "trail_analysis"
    use_case_version := e.use_case_version.getD 2 }

/-- config.py `get_settings` under `@lru_cache`: the cache cell is the
process state, passed and returned explicitly.  On a hit the cached
instance is returned and the cell is untouched; on a miss `Settings()` is
constructed, stored and returned. -/
def get_settings (cache : Option Settings) (e : EnvVars) :
    Settings × Option Settings :=
  match cache with
  | some s => (s, some s)
  | none =>
    let s := Settings.load e
    (s, some s)

/- ---------------------------------------------------------------------
main.py: the tracked model-call wrappers and the HTTP handlers.
--------------------------------------------------------------------- -/

/-- One block of the provider response's `content` list (`block.type`,
`block.text`). -/
structure ContentBlock where
  type : String
  text : String
deriving DecidableEq

/-- The provider response's `usage` block. -/
structure Usage where
  input_tokens : Nat
  output_tokens : Nat
deriving DecidableEq

/-- The provider response consumed by the wrappers: the `content` list and
the `usage` block. -/
structure ProviderResponse where
  content : List ContentBlock
  usage : Usage
deriving DecidableEq

/-- Outcome of the single `anthropic_client.messages.create(...)` call:
a response, a raised `anthropic.APIError` (with its optional
`status_code`), or any other raised exception. -/
inductive ProviderResult where
  | success (response : ProviderResponse)
  | apiError (status_code : Option Nat) (message : String)
  | otherError (message : String)
deriving DecidableEq

/-- One part of the multi-part user message assembled by
`analyze_trail_images` (an image source block or the trailing text
block). -/
inductive ContentPart where
  | image (media_type : String) (data : String)
  | text (text : String)
deriving DecidableEq

/-- An exception escaping a wrapper, as seen by the handler's
`try`/`except` chain: a `fastapi.HTTPException`, an `anthropic.APIError`,
or any other exception (carrying `str(e)`). -/
inductive RaisedError where
  | httpException (status_code : Nat) (detail : String)
  | apiError (status_code : Option Nat) (message : String)
  | otherException (message : String)
deriving DecidableEq

/-- The dict returned by the wrappers alongside the text
(`input_tokens`, `output_tokens`, `use_case_id`). -/
structure WrapperResult where
  input_tokens : Nat
  output_tokens : Nat
  use_case_id : String
deriving DecidableEq

/-- The keyword arguments the wrappers pass to `track_context`
(main.py lines 130-137); the `use_case_version` key is present only when
the caller supplied a version, modelled by the `Option`. -/
structure ContextKwargs where
  use_case_name : String
  user_id : Option String
  use_case_properties : List (String × String)
  request_properties : List (String × String)
  use_case_version : Option Int
deriving DecidableEq

/-- The Pay-i tracking side, seen through `get_context()`: a function from
the kwargs given to `track_context` to the context dictionary visible
inside the scope. -/
def GetContext : Type := ContextKwargs → List (String × String)

/-- The `context_kwargs` dict both wrappers build (main.py lines 130-137
and 305-312): name, user id, the two property maps defaulted to empty
(`x or` the empty dict), and the version key only when supplied. -/
def wrapperKwargs (use_case_name : String) (requesting_user_id : Option String)
    (use_case_properties request_properties : Option (List (String × String)))
    (use_case_version : Option Int) : ContextKwargs :=
  { use_case_name := use_case_name
    user_id := requesting_user_id
    use_case_properties := use_case_properties.getD []
    request_properties := request_properties.getD []
    use_case_version := use_case_version }

/-- The data-URI parse of the image loop in `analyze_trail_images`
(main.py lines 144-153):

    if image_data.startswith("data:"):
        parts = image_data.split(",", 1)
        media_type = parts[0].split(":")[1].split(";")[0]
        base64_data = parts[1]
    else:
        media_type = "image/jpeg"
        base64_data = image_data

`none` models a raised `IndexError` from an out-of-range list index. -/
def parseImagePayload (image_data : String) : Option (String × String) :=
  if pyStartsWith "data:" image_data then
    let parts := pySplit1 ',' image_data
    match (pySplitAll ':' (parts.headD "").data).get? 1 with
    | none => none
    | some afterColon =>
      let media_type := String.mk ((pySplitAll ';' afterColon).headD [])
      match parts.get? 1 with
      | none => none
      | some base64_data => some (media_type, base64_data)
  else
    some ("image/jpeg", image_data)

/-- The message-content assembly of `analyze_trail_images` (main.py lines
142-165): one image part per payload, in order, then the trailing text
part; `none` when some payload's parse raises. -/
def buildContent (images : List String) (prompt : String) :
    Option (List ContentPart) :=
  match images.mapM (fun image_data =>
      (parseImagePayload image_data).map fun md =>
        ContentPart.image md.1 md.2) with
  | none => none
  | some parts => some (parts ++ [ContentPart.text prompt])

/-- The text-extraction loop of `analyze_trail_images` (main.py lines
175-179): the text of the first `"text"`-typed block, `""` when none. -/
def firstTextBlock : List ContentBlock → String
  | [] => ""
  | b :: rest => if b.type = "text" then b.text else firstTextBlock rest

/-- The text-extraction loop of `search_trails` (main.py lines 331-334):
left fold appending every `"text"`-typed block's text. -/
def concatTextBlocks (blocks : List ContentBlock) : String :=
  blocks.foldl (fun acc b => if b.type = "text" then acc ++ b.text else acc) ""

/-- The spec's wording for the search response text, stated independently
of the source loop: the concatenation, in response order, of every
text-typed content block's text.  Compared with `concatTextBlocks` in the
refinement theorem for the web-search wrapper. -/
def specTextConcat : List ContentBlock → String
  | [] => ""
  | b :: rest => (if b.type = "text" then b.text else "") ++ specTextConcat rest

/-- main.py `analyze_trail_images` (lines 105-189).  Explicit external
inputs: `anthropic_client` (the module-global handle, `none` =
uninitialized), `get_context`/`fresh_uuid` (the tracking context and the
`uuid.uuid4()` fallback), and `provider` (the outcome of the single
`messages.create` call, which the source issues with `max_tokens=2048`).
The remaining parameters mirror the Python signature. -/
def analyze_trail_images (anthropic_client : Option Unit)
    (get_context : GetContext) (fresh_uuid : String)
    (provider : ProviderResult)
    (images : List String) (prompt : String) (model : String)
    (requesting_user_id : Option String)
    (use_case_name : String)
    (use_case_version : Option Int)
    (use_case_properties : Option (List (String × String)))
    (request_properties : Option (List (String × String))) :
    Except RaisedError (String × WrapperResult) :=
  match anthropic_client with
  | none => .error (.httpException 503 "Anthropic client not initialized")
  | some _ =>
    let context_kwargs : ContextKwargs := wrapperKwargs use_case_name
      requesting_user_id use_case_properties request_properties use_case_version
    match buildContent images prompt with
    | none => .error (.otherException "list index out of range")
    | some _content =>
      match provider with
      | .apiError st msg => .error (.apiError st msg)
      | .otherError msg => .error (.otherException msg)
      | .success response =>
        let text := firstTextBlock response.content
        let ctx := get_context context_kwargs
        let use_case_id := (ctx.lookup "use_case_id").getD fresh_uuid
        .ok (text,
          { input_tokens := response.usage.input_tokens
            output_tokens := response.usage.output_tokens
            use_case_id := use_case_id })

/-- main.py `search_trails` (lines 280-344).  Same external-input
modelling as `analyze_trail_images`; the source issues the provider call
with the caller's `max_tokens` and the web-search tool attached, then
concatenates every text-typed block. -/
def search_trails (anthropic_client : Option Unit)
    (get_context : GetContext) (fresh_uuid : String)
    (provider : ProviderResult)
    (prompt : String) (model : String) (max_tokens : Nat)
    (requesting_user_id : Option String)
    (use_case_name : String)
    (use_case_version : Option Int)
    (use_case_properties : Option (List (String × String)))
    (request_properties : Option (List (String × String))) :
    Except RaisedError (String × WrapperResult) :=
  match anthropic_client with
  | none => .error (.httpException 503 "Anthropic client not initialized")
  | some _ =>
    let context_kwargs : ContextKwargs := wrapperKwargs use_case_name
      requesting_user_id use_case_properties request_properties use_case_version
    match provider with
    | .apiError st msg => .error (.apiError st msg)
    | .otherError msg => .error (.otherException msg)
    | .success response =>
      let text := concatTextBlocks response.content
      let ctx := get_context context_kwargs
      let use_case_id := (ctx.lookup "use_case_id").getD fresh_uuid
      .ok (text,
        { input_tokens := response.usage.input_tokens
          output_tokens := response.usage.output_tokens
          use_case_id := use_case_id })

/-- Python `{request.vehicle_info.year or ''}` inside the f-string of
`build_analysis_prompt`: absent or zero year formats as the empty
string. -/
def yearStr : Option Int → String
  | none => ""
  | some y => if y = 0 then "" else toString y

/-- The fixed `prompt_parts` list of `build_analysis_prompt` (main.py
lines 403-415). -/
def analysisPromptParts : List String :=
  ["Analyze these trail photos for off-road/overlanding conditions.",
   "Provide a JSON response with the following structure:",
   "\x7b",
   "  \"difficulty\": 1-5,",
   "  \"trailType\": [\"dirt road\", \"rock crawl\", etc],",
   "  \"conditions\": [\"dry\", \"muddy\", etc],",
   "  \"hazards\": [\"steep grades\", \"loose rocks\", etc],",
   "  \"recommendations\": [\"air down tires\", etc],",
   "  \"bestFor\": [\"4x4 trucks\", \"ATVs\", etc],",
   "  \"summary\": \"Brief trail description\"",
   "\x7d"]

/-- The fixed JSON-template string: the joined `prompt_parts` when no
optional field contributes a line. -/
def analysisPromptTemplate : String :=
  pyJoin "\n" analysisPromptParts

/-- The vehicle block of `build_analysis_prompt` (main.py lines 417-422):
when vehicle info is present, append the `Vehicle:` line, and the
`Features:` line only when the features list is truthy (non-empty). -/
def appendVehicleParts (prompt_parts : List String) :
    Option VehicleInfo → List String
  | none => prompt_parts
  | some v =>
    let withVehicle := prompt_parts ++
      ["\nVehicle: " ++ yearStr v.year ++ " " ++ v.make ++ " " ++ v.model]
    match v.features with
    | [] => withVehicle
    | f :: fs => withVehicle ++ ["Features: " ++ pyJoin ", " (f :: fs)]

/-- The context block of `build_analysis_prompt` (main.py lines 424-430):
each of the three optional strings appends a line only when truthy
(present and non-empty). -/
def appendContextParts (prompt_parts : List String) :
    Option AnalysisContext → List String
  | none => prompt_parts
  | some c =>
    let p := prompt_parts
    let p :=
      match c.trail_name with
      | some t => if t = "" then p else p ++ ["\nTrail: " ++ t]
      | none => p
    let p :=
      match c.trail_location with
      | some l => if l = "" then p else p ++ ["Location: " ++ l]
      | none => p
    match c.additional_notes with
    | some n => if n = "" then p else p ++ ["Notes: " ++ n]
    | none => p

/-- main.py `build_analysis_prompt` (lines 399-432): the fixed template
parts, the optional vehicle lines, the optional context lines, joined
with newlines. -/
def build_analysis_prompt (request : AnalyzeRequest) : String :=
  let prompt_parts := analysisPromptParts
  let prompt_parts := appendVehicleParts prompt_parts request.vehicle_info
  let prompt_parts := appendContextParts prompt_parts request.context
  pyJoin "\n" prompt_parts

/-- The prompt resolution of the `/analyze` handler (main.py lines
208-214): `if request.prompt:` is a Python truthiness test, so an absent
or empty prompt falls back to `build_analysis_prompt`. -/
def resolvePrompt (request : AnalyzeRequest) : String :=
  match request.prompt with
  | some p => if p = "" then build_analysis_prompt request else p
  | none => build_analysis_prompt request

/-- The use-case-properties resolution of the `/analyze` handler (main.py
lines 217-230): a truthy caller-supplied map wins, else the map is built
from context and vehicle fields (empty/zero fields skipped by
truthiness). -/
def resolveUseCaseProperties (request : AnalyzeRequest) :
    List (String × String) :=
  let fallback :=
    let p : List (String × String) := []
    let p :=
      match request.context with
      | none => p
      | some c =>
        let p :=
          match c.trail_name with
          | some t => if t = "" then p else p ++ [("trail_name", t)]
          | none => p
        match c.trail_location with
        | some l => if l = "" then p else p ++ [("trail_location", l)]
        | none => p
    match request.vehicle_info with
    | none => p
    | some v =>
      let p := p ++ [("vehicle_make", v.make), ("vehicle_model", v.model)]
      match v.year with
      | some y => if y = 0 then p else p ++ [("vehicle_year", toString y)]
      | none => p
  match request.use_case_properties with
  | some props => if props = [] then fallback else props
  | none => fallback

/-- The request-properties resolution of the `/analyze` handler (main.py
lines 233-241). -/
def resolveRequestProperties (request : AnalyzeRequest) :
    List (String × String) :=
  match request.request_properties with
  | some props =>
    if props = [] then
      [("image_count", toString request.images.length),
       ("model_used", request.model),
       ("has_vehicle_info", pyStrBool request.vehicle_info.isSome),
       ("has_context", pyStrBool request.context.isSome)]
    else props
  | none =>
    [("image_count", toString request.images.length),
     ("model_used", request.model),
     ("has_vehicle_info", pyStrBool request.vehicle_info.isSome),
     ("has_context", pyStrBool request.context.isSome)]

/-- Python `request.use_case_name or default`. -/
def resolveUseCaseName (n : Option String) (dflt : String) : String :=
  match n with
  | some s => if s = "" then dflt else s
  | none => dflt

/-- An HTTP error response: status code and `detail` string. -/
def HError : Type := Nat × String

/-- The `except` chain shared by both handlers (main.py lines 272-277 and
391-396): an `anthropic.APIError` maps to `e.status_code or 500`; any
other exception — including an `HTTPException` raised by the wrapper,
which `except Exception` catches — maps to 500 with `str(e)` as detail
(starlette formats `str(HTTPException)` as `"{code}: {detail}"`). -/
def endpointError : RaisedError → HError
  | .apiError st msg => (st.getD 500, msg)
  | .httpException st detail => (500, toString st ++ ": " ++ detail)
  | .otherException msg => (500, msg)

/-- main.py `analyze` handler for `POST /analyze` (lines 192-277).  A
`.ok` value is the 200 response body; a `.error` value is the HTTP error
raised. -/
def analyze (anthropic_client : Option Unit)
    (get_context : GetContext) (fresh_uuid : String)
    (provider : ProviderResult) (request : AnalyzeRequest) :
    Except HError AnalyzeResponse :=
  let prompt := resolvePrompt request
  let use_case_properties := resolveUseCaseProperties request
  let request_properties := resolveRequestProperties request
  let ucn := resolveUseCaseName request.use_case_name "trail_analysis"
  match analyze_trail_images anthropic_client get_context fresh_uuid provider
      request.images prompt request.model request.user_id ucn
      request.use_case_version (some use_case_properties)
      (some request_properties) with
  | .ok (text, metrics) =>
    .ok { success := true
          text := text
          usage := { input_tokens := metrics.input_tokens
                     output_tokens := metrics.output_tokens }
          use_case_id := metrics.use_case_id }
  | .error e => .error (endpointError e)

/-- main.py `trail_finder` handler for `POST /trail-finder` (lines
347-396). -/
def trail_finder (anthropic_client : Option Unit)
    (get_context : GetContext) (fresh_uuid : String)
    (provider : ProviderResult) (request : TrailFinderRequest) :
    Except HError TrailFinderResponse :=
  let use_case_name := resolveUseCaseName request.use_case_name "trail_finder"
  match search_trails anthropic_client get_context fresh_uuid provider
      request.prompt request.model request.max_tokens request.user_id
      use_case_name request.use_case_version request.use_case_properties
      request.request_properties with
  | .ok (text, metrics) =>
    .ok { success := true
          text := text
          usage := { input_tokens := metrics.input_tokens
                     output_tokens := metrics.output_tokens }
          use_case_id := metrics.use_case_id }
  | .error e => .error (endpointError e)

/- ---------------------------------------------------------------------
Helper lemmas about the Python string helpers.
--------------------------------------------------------------------- -/

theorem splitFirst_of_not_mem (sep : Char) (l : List Char) (h : sep ∉ l) :
    splitFirst sep l = none := by
  induction l with
  | nil => rfl
  | cons c rest ih =>
    have hc : ¬ c = sep := fun e => h (by simp [e])
    have hr : sep ∉ rest := fun m => h (List.mem_cons_of_mem c m)
    simp [splitFirst, hc, ih hr]

theorem splitFirst_mem (sep : Char) (l : List Char) (h : sep ∈ l) :
    ∃ a b, splitFirst sep l = some (a, b) := by
  induction l with
  | nil => cases h
  | cons c rest ih =>
    by_cases hc : c = sep
    · exact ⟨[], rest, by simp [splitFirst, hc]⟩
    · have hm : sep ∈ rest := by
        cases h with
        | head => exact absurd rfl hc
        | tail _ hm => exact hm
      obtain ⟨a, b, hab⟩ := ih hm
      exact ⟨c :: a, b, by simp [splitFirst, hc, hab]⟩

theorem splitFirst_append_of_not_mem (sep : Char) (pre rest : List Char)
    (h : sep ∉ pre) :
    splitFirst sep (pre ++ rest) =
      match splitFirst sep rest with
      | none => none
      | some (a, b) => some (pre ++ a, b) := by
  induction pre with
  | nil =>
    cases hr : splitFirst sep rest with
    | none => simp [hr]
    | some ab => cases ab with | mk a b => simp [hr]
  | cons c p ih =>
    have hc : ¬ c = sep := fun e => h (by simp [e])
    have hp : sep ∉ p := fun m => h (by simp [m])
    cases hr : splitFirst sep rest with
    | none => simp [splitFirst, hc, List.cons_append, ih hp, hr]
    | some ab => cases ab with | mk a b => simp [splitFirst, hc, ih hp, hr]

theorem pySplitAll_ne_nil (sep : Char) (l : List Char) :
    pySplitAll sep l ≠ [] := by
  cases l with
  | nil => simp [pySplitAll]
  | cons c rest =>
    simp only [pySplitAll]
    split
    · simp
    · split <;> simp

theorem pySplitAll_sep_mem (sep : Char) (pre rest : List Char) (h : sep ∉ pre) :
    pySplitAll sep (pre ++ sep :: rest) = pre :: pySplitAll sep rest := by
  induction pre with
  | nil => simp [pySplitAll]
  | cons c p ih =>
    have hc : ¬ c = sep := fun e => h (by simp [e])
    have hp : sep ∉ p := fun m => h (by simp [m])
    simp [pySplitAll, hc, List.cons_append, ih hp]

theorem isPrefixOf_append_self (l t : List Char) :
    l.isPrefixOf (l ++ t) = true := by
  rw [List.isPrefixOf_iff_prefix]
  exact List.prefix_append l t

theorem listIsInfix_append (sub a b : List Char) :
    listIsInfix sub (a ++ (sub ++ b)) = true := by
  induction a with
  | nil =>
    rw [List.nil_append]
    cases h : sub ++ b with
    | nil =>
      have hs : sub = [] := by cases sub <;> simp_all
      simp [listIsInfix, hs]
    | cons x xs =>
      simp only [listIsInfix]
      rw [← h, isPrefixOf_append_self]
      simp
  | cons c a' ih =>
    rw [List.cons_append]
    simp only [listIsInfix, List.append_eq]
    rw [ih]
    simp

theorem strContains_of_decomp (s sub A B : String) (h : s = A ++ (sub ++ B)) :
    strContains s sub = true := by
  subst h
  unfold strContains
  rw [String.data_append, String.data_append]
  exact listIsInfix_append sub.data A.data B.data

theorem pyJoin_cons (sep x : String) (t : List String) (h : t ≠ []) :
    pyJoin sep (x :: t) = x ++ sep ++ pyJoin sep t := by
  cases t with
  | nil => exact absurd rfl h
  | cons y ys => rfl

theorem pyJoin_mem_decomp (sep : String) (xs : List String) (l : String)
    (ys : List String) :
    ∃ A B, pyJoin sep (xs ++ l :: ys) = A ++ (l ++ B) := by
  induction xs with
  | nil =>
    cases ys with
    | nil =>
      exact ⟨"", "", by simp [pyJoin, String.empty_append, String.append_empty]⟩
    | cons y ys' =>
      refine ⟨"", sep ++ pyJoin sep (y :: ys'), ?_⟩
      simp [pyJoin, String.empty_append, String.append_assoc]
  | cons x xs' ih =>
    obtain ⟨A, B, hAB⟩ := ih
    refine ⟨(x ++ sep) ++ A, B, ?_⟩
    rw [List.cons_append, pyJoin_cons sep x _ (by simp), hAB]
    simp [String.append_assoc]

theorem buildContent_head_fail (x : String) (l : List String) (p : String)
    (h : parseImagePayload x = none) : buildContent (x :: l) p = none := by
  simp [buildContent, List.mapM, List.mapM.loop, h]

theorem firstTextBlock_eq_find (blocks : List ContentBlock) :
    firstTextBlock blocks =
      ((blocks.find? fun b => b.type == "text").map ContentBlock.text).getD "" := by
  induction blocks with
  | nil => rfl
  | cons b rest ih =>
    by_cases h : b.type = "text"
    · rw [List.find?_cons_of_pos _ (by simp [h])]
      simp [firstTextBlock, h]
    · rw [List.find?_cons_of_neg _ (by simp [h])]
      simp [firstTextBlock, h, ih]

theorem concatTextBlocks_aux (blocks : List ContentBlock) (acc : String) :
    blocks.foldl (fun acc b => if b.type = "text" then acc ++ b.text else acc) acc
      = acc ++ specTextConcat blocks := by
  induction blocks generalizing acc with
  | nil => simp [specTextConcat, String.append_empty]
  | cons b rest ih =>
    by_cases h : b.type = "text"
    · simp [specTextConcat, h, List.foldl_cons, ih, String.append_assoc]
    · simp [specTextConcat, h, List.foldl_cons, ih, String.empty_append]

theorem concatTextBlocks_eq_spec (blocks : List ContentBlock) :
    concatTextBlocks blocks = specTextConcat blocks := by
  have h := concatTextBlocks_aux blocks ""
  rwa [String.empty_append] at h

theorem appendVehicleParts_decomp (p : List String) (v : VehicleInfo) :
    ∃ tail, appendVehicleParts p (some v) =
      p ++ ("\nVehicle: " ++ yearStr v.year ++ " " ++ v.make ++ " " ++ v.model)
        :: tail := by
  cases hf : v.features with
  | nil => exact ⟨[], by simp [appendVehicleParts, hf]⟩
  | cons f fs =>
    exact ⟨["Features: " ++ pyJoin ", " (f :: fs)],
      by simp [appendVehicleParts, hf, List.append_assoc]⟩

theorem appendContextParts_eq (p : List String) (c : Option AnalysisContext) :
    appendContextParts p c = p ++ appendContextParts [] c := by
  cases c with
  | none => simp [appendContextParts]
  | some c =>
    obtain ⟨tn, tl, an⟩ := c
    cases tn <;> cases tl <;> cases an <;>
      simp [appendContextParts, List.append_assoc] <;>
      split_ifs <;>
      simp [List.append_assoc]

/- ---------------------------------------------------------------------
Claim theorems.
--------------------------------------------------------------------- -/

/-- Claim C1 (code-bug evidence): with the provider client uninitialized
(`anthropic_client = none`), both `POST /analyze` and `POST /trail-finder`
return HTTP status 500, not the 503 the claim states: the wrapper raises
an HTTP 503 exception, but the handler's blanket `except Exception`
catches it and re-raises it as a 500 whose detail is the string form of
the original exception. -/
theorem uninitialized_client_returns_500 :
    analyze none (fun _ => []) "uuid-0"
        (.success { content := [], usage := { input_tokens := 0, output_tokens := 0 } })
        { images := [] }
      = .error (500, "503: Anthropic client not initialized")
    ∧ trail_finder none (fun _ => []) "uuid-0"
        (.success { content := [], usage := { input_tokens := 0, output_tokens := 0 } })
        { prompt := "find trails near Moab" }
      = .error (500, "503: Anthropic client not initialized") := by
  exact ⟨rfl, rfl⟩

/-- Claim C2: on every successful wrapper call the returned use_case_id is
the id the tracking context exposes when it exposes one, and the freshly
generated uuid otherwise; the successful result carries exactly that one
id, in both wrappers. -/
theorem use_case_id_from_context (ctxdict : List (String × String))
    (fresh : String) (r : ProviderResponse) (images : List String)
    (prompt model ucn : String) (mt : Nat) (uid : Option String)
    (ucv : Option Int) (ucp rp : Option (List (String × String)))
    (parts : List ContentPart)
    (h : buildContent images prompt = some parts) :
    (∀ i, ctxdict.lookup "use_case_id" = some i →
      analyze_trail_images (some ()) (fun _ => ctxdict) fresh (.success r)
          images prompt model uid ucn ucv ucp rp
        = .ok (firstTextBlock r.content,
            { input_tokens := r.usage.input_tokens
              output_tokens := r.usage.output_tokens
              use_case_id := i })
      ∧ search_trails (some ()) (fun _ => ctxdict) fresh (.success r)
          prompt model mt uid ucn ucv ucp rp
        = .ok (concatTextBlocks r.content,
            { input_tokens := r.usage.input_tokens
              output_tokens := r.usage.output_tokens
              use_case_id := i }))
    ∧ (ctxdict.lookup "use_case_id" = none →
      analyze_trail_images (some ()) (fun _ => ctxdict) fresh (.success r)
          images prompt model uid ucn ucv ucp rp
        = .ok (firstTextBlock r.content,
            { input_tokens := r.usage.input_tokens
              output_tokens := r.usage.output_tokens
              use_case_id := fresh })
      ∧ search_trails (some ()) (fun _ => ctxdict) fresh (.success r)
          prompt model mt uid ucn ucv ucp rp
        = .ok (concatTextBlocks r.content,
            { input_tokens := r.usage.input_tokens
              output_tokens := r.usage.output_tokens
              use_case_id := fresh })) := by
  constructor
  · intro i hi
    constructor <;> simp [analyze_trail_images, search_trails, h, hi]
  · intro hnone
    constructor <;> simp [analyze_trail_images, search_trails, h, hnone]

/-- Witness for C2: a context exposing id "ctx-42" wins over the fresh
uuid "fresh-9". -/
theorem use_case_id_from_context_witness :
    analyze_trail_images (some ()) (fun _ => [("use_case_id", "ctx-42")]) "fresh-9"
        (.success { content := [{ type := "text", text := "ok" }],
                    usage := { input_tokens := 3, output_tokens := 5 } })
        [] "p" "m" none "trail_analysis" none none none
      = .ok ("ok", { input_tokens := 3, output_tokens := 5, use_case_id := "ctx-42" })
    ∧ search_trails (some ()) (fun _ => [("use_case_id", "ctx-42")]) "fresh-9"
        (.success { content := [{ type := "text", text := "ok" }],
                    usage := { input_tokens := 3, output_tokens := 5 } })
        "p" "m" 7 none "trail_analysis" none none none
      = .ok ("ok", { input_tokens := 3, output_tokens := 5, use_case_id := "ctx-42" }) :=
  (use_case_id_from_context [("use_case_id", "ctx-42")] "fresh-9"
      { content := [{ type := "text", text := "ok" }],
        usage := { input_tokens := 3, output_tokens := 5 } }
      [] "p" "m" "trail_analysis" 7 none none none none
      [ContentPart.text "p"] rfl).1 "ctx-42" rfl

/-- Claim C3: the text returned by `search_trails` is the concatenation,
in response order, of every text-typed content block of the provider
response; in particular a response with the two text parts "A" and "B"
yields "AB". -/
theorem search_trails_concats_all_text (r : ProviderResponse)
    (gc : GetContext) (fresh prompt model ucn : String) (mt : Nat)
    (uid : Option String) (ucv : Option Int)
    (ucp rp : Option (List (String × String))) :
    search_trails (some ()) gc fresh (.success r) prompt model mt uid ucn ucv ucp rp
      = .ok (specTextConcat r.content,
          { input_tokens := r.usage.input_tokens
            output_tokens := r.usage.output_tokens
            use_case_id := ((gc (wrapperKwargs ucn uid ucp rp
                ucv)).lookup "use_case_id").getD fresh })
    ∧ search_trails (some ()) (fun _ => []) "u0"
        (.success { content := [{ type := "text", text := "A" },
                                { type := "text", text := "B" }],
                    usage := { input_tokens := 1, output_tokens := 2 } })
        "p" "m" 10 none "trail_finder" none none none
      = .ok ("AB", { input_tokens := 1, output_tokens := 2, use_case_id := "u0" }) := by
  constructor
  · simp [search_trails, concatTextBlocks_eq_spec]
  · rfl

/-- Claim C4: the data-URI parse extracts media type "image/png" and
base64 payload "AAAA" from "data:image/png;base64,AAAA", and any payload
not starting with "data:" gets media type "image/jpeg" with the string
itself as the payload. -/
theorem parseImagePayload_spec (s : String)
    (h : pyStartsWith "data:" s = false) :
    parseImagePayload "data:image/png;base64,AAAA" = some ("image/png", "AAAA")
    ∧ parseImagePayload s = some ("image/jpeg", s) := by
  refine ⟨by decide, ?_⟩
  simp [parseImagePayload, h]

/-- Witness for C4 at the bare base64 payload "QUFBQQ==". -/
theorem parseImagePayload_spec_witness :
    parseImagePayload "data:image/png;base64,AAAA" = some ("image/png", "AAAA")
    ∧ parseImagePayload "QUFBQQ==" = some ("image/jpeg", "QUFBQQ==") :=
  parseImagePayload_spec "QUFBQQ==" (by decide)

/-- Claim C5 counterexample: a caller-supplied prompt that is present but
empty is not passed verbatim: `if request.prompt:` is falsy for the empty
string, so the handler passes the built fallback prompt (which is
non-empty) instead of the supplied empty prompt. -/
theorem resolvePrompt_empty_counterexample :
    ({ images := [], prompt := some "" } : AnalyzeRequest).prompt = some ""
    ∧ resolvePrompt { images := [], prompt := some "" } ≠ ""
    ∧ resolvePrompt { images := [], prompt := some "" }
        = build_analysis_prompt { images := [], prompt := some "" } := by
  refine ⟨rfl, ?_, rfl⟩
  decide

/-- Claim C5 as amended: a present and non-empty caller prompt is passed
verbatim to the model-call wrapper; an absent or empty prompt is replaced
by the output of `build_analysis_prompt` on the request. -/
theorem resolvePrompt_amended (request : AnalyzeRequest) :
    (∀ p, request.prompt = some p → p ≠ "" → resolvePrompt request = p)
    ∧ (request.prompt = none ∨ request.prompt = some "" →
        resolvePrompt request = build_analysis_prompt request) := by
  constructor
  · intro p hp hne
    simp [resolvePrompt, hp, hne]
  · rintro (hp | hp) <;> simp [resolvePrompt, hp]

/-- Witness for the amended C5 at a non-empty caller prompt. -/
theorem resolvePrompt_amended_witness :
    resolvePrompt { images := [], prompt := some "use this prompt" }
      = "use this prompt" :=
  (resolvePrompt_amended _).1 "use this prompt" rfl (by decide)

/-- Claim C6: an `AnalyzeRequest` whose images list is empty is not
rejected: the empty list is forwarded to the wrapper (the assembled
message content is just the trailing text part), and when the provider
call succeeds the endpoint returns the success body with non-negative
token counts and a non-empty use_case_id (assuming the tracking context
never exposes an empty id and the generated uuid string is non-empty). -/
theorem analyze_empty_images_accepted (request : AnalyzeRequest)
    (h0 : request.images = []) (r : ProviderResponse) (gc : GetContext)
    (fresh : String) (hfresh : fresh ≠ "")
    (hctx : ∀ kw i, (gc kw).lookup "use_case_id" = some i → i ≠ "") :
    buildContent request.images (resolvePrompt request)
      = some [ContentPart.text (resolvePrompt request)]
    ∧ ∃ resp : AnalyzeResponse,
        analyze (some ()) gc fresh (.success r) request = .ok resp
        ∧ resp.success = true
        ∧ 0 ≤ resp.usage.input_tokens
        ∧ 0 ≤ resp.usage.output_tokens
        ∧ resp.use_case_id ≠ "" := by
  have hbc : buildContent request.images (resolvePrompt request)
      = some [ContentPart.text (resolvePrompt request)] := by
    rw [h0]; rfl
  refine ⟨hbc, ?_⟩
  refine ⟨{ success := true, text := firstTextBlock r.content,
            usage := { input_tokens := r.usage.input_tokens,
                       output_tokens := r.usage.output_tokens },
            use_case_id := ((gc (wrapperKwargs
                (resolveUseCaseName request.use_case_name "trail_analysis")
                request.user_id (some (resolveUseCaseProperties request))
                (some (resolveRequestProperties request))
                request.use_case_version)).lookup "use_case_id").getD fresh },
      ?_, rfl, Nat.zero_le _, Nat.zero_le _, ?_⟩
  · simp [analyze, analyze_trail_images, hbc]
  · cases hlk : (gc (wrapperKwargs
        (resolveUseCaseName request.use_case_name "trail_analysis")
        request.user_id (some (resolveUseCaseProperties request))
        (some (resolveRequestProperties request))
        request.use_case_version)).lookup "use_case_id" with
    | none => simpa [hlk] using hfresh
    | some i => simpa [hlk] using hctx _ i hlk

/-- Witness for C6 at a concrete empty-images request. -/
theorem analyze_empty_images_accepted_witness :
    buildContent ({ images := [] } : AnalyzeRequest).images
        (resolvePrompt { images := [] })
      = some [ContentPart.text (resolvePrompt { images := [] })]
    ∧ ∃ resp : AnalyzeResponse,
        analyze (some ()) (fun _ => []) "fresh-1"
            (.success { content := [],
                        usage := { input_tokens := 1, output_tokens := 2 } })
            { images := [] }
          = .ok resp
        ∧ resp.success = true
        ∧ 0 ≤ resp.usage.input_tokens
        ∧ 0 ≤ resp.usage.output_tokens
        ∧ resp.use_case_id ≠ "" :=
  analyze_empty_images_accepted { images := [] } rfl
    { content := [], usage := { input_tokens := 1, output_tokens := 2 } }
    (fun _ => []) "fresh-1" (by decide) (fun _ i h => by simp at h)

/-- Claim C7: on a successful provider call, `analyze_trail_images`
returns the text of the first text-typed content block of the response
(the empty string when there is none) and passes through the usage
block's input and output token counts. -/
theorem analyze_trail_images_first_text (r : ProviderResponse)
    (gc : GetContext) (fresh : String) (images : List String)
    (prompt model ucn : String) (uid : Option String) (ucv : Option Int)
    (ucp rp : Option (List (String × String)))
    (parts : List ContentPart)
    (h : buildContent images prompt = some parts) :
    ∃ m : WrapperResult,
      analyze_trail_images (some ()) gc fresh (.success r)
          images prompt model uid ucn ucv ucp rp
        = .ok (((r.content.find? fun b => b.type == "text").map
                  ContentBlock.text).getD "", m)
      ∧ m.input_tokens = r.usage.input_tokens
      ∧ m.output_tokens = r.usage.output_tokens := by
  refine ⟨{ input_tokens := r.usage.input_tokens,
            output_tokens := r.usage.output_tokens,
            use_case_id := ((gc (wrapperKwargs ucn uid ucp rp
                ucv)).lookup "use_case_id").getD fresh },
      ?_, rfl, rfl⟩
  simp [analyze_trail_images, h, firstTextBlock_eq_find]

/-- Witness for C7: the first of two text blocks is selected, and a
non-text leading block is skipped. -/
theorem analyze_trail_images_first_text_witness :
    ∃ m : WrapperResult,
      analyze_trail_images (some ()) (fun _ => []) "u1"
          (.success { content := [{ type := "tool_use", text := "x" },
                                  { type := "text", text := "hello" },
                                  { type := "text", text := "world" }],
                      usage := { input_tokens := 11, output_tokens := 7 } })
          [] "p" "m" none "trail_analysis" none none none
        = .ok ("hello", m)
      ∧ m.input_tokens = 11
      ∧ m.output_tokens = 7 :=
  analyze_trail_images_first_text
    { content := [{ type := "tool_use", text := "x" },
                  { type := "text", text := "hello" },
                  { type := "text", text := "world" }],
      usage := { input_tokens := 11, output_tokens := 7 } }
    (fun _ => []) "u1" [] "p" "m" "trail_analysis" none none none none
    [ContentPart.text "p"] rfl

set_option maxRecDepth 10000 in
/-- Claim C8 counterexample: for vehicle info carrying the year 0 the
claimed substring of the year, make and model does not occur in the built
prompt, because the f-string formats `year or ''` and 0 is falsy in
Python. -/
theorem build_analysis_prompt_zero_year_counterexample :
    ({ images := [], vehicle_info := some { make := "Jeep", model := "Wrangler", year := some 0 } } : AnalyzeRequest).vehicle_info
      = some { make := "Jeep", model := "Wrangler", year := some 0 }
    ∧ strContains
        (build_analysis_prompt
          { images := [],
            vehicle_info := some { make := "Jeep", model := "Wrangler", year := some 0 } })
        (toString (0 : Int) ++ " " ++ "Jeep" ++ " " ++ "Wrangler") = false := by
  exact ⟨rfl, by decide⟩

/-- Claim C8 as amended: `build_analysis_prompt` is pure and total; with
no vehicle info and no context its output is exactly the fixed
JSON-template string, and with vehicle info carrying a non-zero year the
output contains "{year} {make} {model}" as a substring. -/
theorem build_analysis_prompt_amended (request : AnalyzeRequest) :
    (request.vehicle_info = none → request.context = none →
      build_analysis_prompt request = analysisPromptTemplate)
    ∧ (∀ v y, request.vehicle_info = some v → v.year = some y → y ≠ 0 →
        strContains (build_analysis_prompt request)
          (toString y ++ " " ++ v.make ++ " " ++ v.model) = true) := by
  constructor
  · intro hv hc
    simp [build_analysis_prompt, hv, hc, appendVehicleParts, appendContextParts,
      analysisPromptTemplate]
  · intro v y hv hy hy0
    obtain ⟨tail, htail⟩ := appendVehicleParts_decomp analysisPromptParts v
    have hys : yearStr v.year = toString y := by simp [yearStr, hy, hy0]
    have hbuild : build_analysis_prompt request =
        pyJoin "\n" (analysisPromptParts ++
          ("\nVehicle: " ++ yearStr v.year ++ " " ++ v.make ++ " " ++ v.model)
            :: (tail ++ appendContextParts [] request.context)) := by
      simp only [build_analysis_prompt, hv, htail]
      rw [appendContextParts_eq]
      simp [List.append_assoc]
    obtain ⟨A, B, hAB⟩ := pyJoin_mem_decomp "\n" analysisPromptParts
      ("\nVehicle: " ++ yearStr v.year ++ " " ++ v.make ++ " " ++ v.model)
      (tail ++ appendContextParts [] request.context)
    rw [hbuild, hAB]
    apply strContains_of_decomp _ _ (A ++ "\nVehicle: ") B
    rw [hys]
    simp [String.append_assoc]

/-- Witness for the amended C8: the template case and a 2020 Jeep
Wrangler. -/
theorem build_analysis_prompt_amended_witness :
    build_analysis_prompt { images := [] } = analysisPromptTemplate
    ∧ strContains
        (build_analysis_prompt
          { images := [],
            vehicle_info := some { make := "Jeep", model := "Wrangler", year := some 2020 } })
        (toString (2020 : Int) ++ " " ++ "Jeep" ++ " " ++ "Wrangler") = true :=
  ⟨(build_analysis_prompt_amended { images := [] }).1 rfl rfl,
   (build_analysis_prompt_amended
      { images := [],
        vehicle_info := some { make := "Jeep", model := "Wrangler", year := some 2020 } }).2
     { make := "Jeep", model := "Wrangler", year := some 2020 } 2020 rfl rfl
     (by decide)⟩

/-- Claim C9: `get_settings` under `lru_cache` is idempotent within a
process: the second call returns exactly the instance cached by the first
(whatever the environment holds at that later time), the cache cell is
unchanged by later calls, and a cache hit returns the stored instance
untouched. -/
theorem get_settings_idempotent (e e2 : EnvVars) (s : Settings) :
    (get_settings (get_settings none e).2 e2).1 = (get_settings none e).1
    ∧ (get_settings (get_settings none e).2 e2).2 = (get_settings none e).2
    ∧ get_settings (some s) e = (s, some s) := by
  exact ⟨rfl, rfl, rfl⟩

/-- Claim C10: an image payload starting with "data:" but containing no
comma makes the data-URI parse raise (modelled as `none`) and the wrapper
fail with an unclassified exception rather than produce a message part;
the parse succeeds exactly for payloads that contain a comma or do not
start with "data:". -/
theorem parseImagePayload_partiality (s : String) (gc : GetContext)
    (fresh prompt model ucn : String) (prov : ProviderResult)
    (uid : Option String) (ucv : Option Int)
    (ucp rp : Option (List (String × String))) :
    (pyStartsWith "data:" s = true → ',' ∉ s.data →
      parseImagePayload s = none
      ∧ analyze_trail_images (some ()) gc fresh prov [s] prompt model
            uid ucn ucv ucp rp
          = .error (.otherException "list index out of range"))
    ∧ (',' ∈ s.data ∨ pyStartsWith "data:" s = false →
        (parseImagePayload s).isSome = true) := by
  constructor
  · intro hsw hnc
    have hsf : splitFirst ',' s.data = none := splitFirst_of_not_mem _ _ hnc
    have hparse : parseImagePayload s = none := by
      simp only [parseImagePayload, hsw, if_true, pySplit1, hsf]
      split <;> rfl
    refine ⟨hparse, ?_⟩
    simp [analyze_trail_images, buildContent_head_fail s [] prompt hparse]
  · intro hd
    by_cases hsw : pyStartsWith "data:" s = true
    · have hc : ',' ∈ s.data := by
        cases hd with
        | inl h1 => exact h1
        | inr h2 => rw [h2] at hsw; cases hsw
      have hpw : ("data:".data).isPrefixOf s.data = true := hsw
      obtain ⟨t, ht⟩ := List.isPrefixOf_iff_prefix.mp hpw
      have hct : ',' ∈ t := by
        rw [← ht] at hc
        rcases List.mem_append.mp hc with h1 | h2
        · exact absurd h1 (by decide)
        · exact h2
      obtain ⟨a, b, hab⟩ := splitFirst_mem ',' t hct
      have hsf : splitFirst ',' s.data = some ("data:".data ++ a, b) := by
        rw [← ht, splitFirst_append_of_not_mem ',' _ _ (by decide), hab]
      have hsplit : pySplitAll ':' ('d' :: 'a' :: 't' :: 'a' :: ':' :: a)
          = "data".data :: pySplitAll ':' a :=
        pySplitAll_sep_mem ':' "data".data a (by decide)
      cases hpa : pySplitAll ':' a with
      | nil => exact absurd hpa (pySplitAll_ne_nil ':' a)
      | cons u v =>
        rw [hpa] at hsplit
        simp [parseImagePayload, hsw, pySplit1, hsf, hsplit]
    · have h2 : pyStartsWith "data:" s = false := by
        simpa using hsw
      simp [parseImagePayload, h2]

/-- Witness for C10: "data:image/png;base64AAAA" (no comma) fails, while
the comma-carrying variant parses. -/
theorem parseImagePayload_partiality_witness :
    (parseImagePayload "data:image/png;base64AAAA" = none
      ∧ analyze_trail_images (some ()) (fun _ => []) "u2"
          (.success { content := [],
                      usage := { input_tokens := 0, output_tokens := 0 } })
          ["data:image/png;base64AAAA"] "p" "m" none "trail_analysis" none none none
        = .error (.otherException "list index out of range"))
    ∧ (parseImagePayload "data:image/png;base64,AAAA").isSome = true :=
  ⟨(parseImagePayload_partiality "data:image/png;base64AAAA" (fun _ => []) "u2"
      "p" "m" "trail_analysis"
      (.success { content := [],
                  usage := { input_tokens := 0, output_tokens := 0 } })
      none none none none).1 (by decide) (by decide),
   (parseImagePayload_partiality "data:image/png;base64,AAAA" (fun _ => []) "u2"
      "p" "m" "trail_analysis"
      (.success { content := [],
                  usage := { input_tokens := 0, output_tokens := 0 } })
      none none none none).2 (Or.inl (by decide))⟩

end PayiProxy
